import Mathlib

/-!
Verification development for the pyRcCar repository.

The Python sources are shallowly embedded: Python floats are modelled as
rationals (ℚ), Python ints as ℤ, dictionaries as association lists, and
fallible operations (division by zero, list indexing, raising I/O writes)
return `Option` / `Except` / explicit outcome records.
-/

/-! ## arduino_part.py : map_range -/

/-- Embedding of `map_range` (arduino_part.py).  Python's `x // 1` on a
float is floor, and the final `int(...)` on an already-floored value is the
identity, so the result is `⌊(x - X_min) / XY_ratio + Y_min⌋`.
Division by zero (when `Y_range = 0`, and then `XY_ratio = 0` when
`X_range = 0`) is modelled separately by `map_range_checked`. -/
def map_range (x X_min X_max Y_min Y_max : ℚ) : ℤ :=
  let X_range := X_max - X_min
  let Y_range := Y_max - Y_min
  let XY_ratio := X_range / Y_range
  ⌊(x - X_min) / XY_ratio + Y_min⌋

/-- Embedding of `map_range` that tracks Python's `ZeroDivisionError`:
`XY_ratio = X_range / Y_range` is computed first and raises when
`Y_range = 0`; the subsequent `(x - X_min) / XY_ratio` raises when
`XY_ratio = 0`. -/
def map_range_checked (x X_min X_max Y_min Y_max : ℚ) : Option ℤ :=
  let X_range := X_max - X_min
  let Y_range := Y_max - Y_min
  if Y_range = 0 then none
  else
    let XY_ratio := X_range / Y_range
    if XY_ratio = 0 then none
    else some ⌊(x - X_min) / XY_ratio + Y_min⌋

/-! ## arduino_part.py : PWMThrottle.run_threaded -/

/-- Embedding of `PWMThrottle.run_threaded` (arduino_part.py): the pulse it
stores for a throttle command, with `MIN_THROTTLE = -1`, `MAX_THROTTLE = 1`
and the configured integer pulse bounds.  `none` models a
`ZeroDivisionError` escaping from `map_range`. -/
def PWMThrottle_run_threaded (min_pulse zero_pulse max_pulse : ℤ)
    (throttle : ℚ) : Option ℤ :=
  if throttle > 0 then
    map_range_checked throttle 0 1 (zero_pulse : ℚ) (max_pulse : ℚ)
  else
    map_range_checked throttle (-1) 0 (min_pulse : ℚ) (zero_pulse : ℚ)

/-! ## arduino_part.py : ArduinoFirmata.set_pulse -/

/-- Python `int(...)` on a float: truncation toward zero. -/
def int_trunc (q : ℚ) : ℤ := if 0 ≤ q then ⌊q⌋ else ⌈q⌉

/-- Observable outcome of one `set_pulse` call: the `analog_write` calls
issued to the board (pin, value), and whether an exception propagated out
of `set_pulse`. -/
structure PulseOutcome where
  writes : List (ℤ × ℤ)
  escaped : Bool
deriving DecidableEq

/-- Embedding of `ArduinoFirmata.set_pulse` (arduino_part.py).  The board
is abstracted as an oracle `fail` telling whether the n-th `analog_write`
attempt of this call raises.  The first attempt sits inside `try`; on
failure the bare `except:` issues a second attempt that is NOT protected,
so its failure propagates. -/
def set_pulse (fail : ℕ → Bool) (pin : ℤ) (angle : ℚ) : PulseOutcome :=
  let v := int_trunc angle
  if fail 0 then
    { writes := [(pin, v), (pin, v)], escaped := fail 1 }
  else
    { writes := [(pin, v)], escaped := false }

/-- Embedding of `ArduinoFirmata.set_servo_pulse`. -/
def set_servo_pulse (fail : ℕ → Bool) (servo_pin : ℤ) (angle : ℚ) :
    PulseOutcome :=
  set_pulse fail servo_pin (int_trunc angle : ℤ)

/-- Embedding of `ArduinoFirmata.set_esc_pulse`. -/
def set_esc_pulse (fail : ℕ → Bool) (esc_pin : ℤ) (angle : ℚ) :
    PulseOutcome :=
  set_pulse fail esc_pin (int_trunc angle : ℤ)

/-! ## joystick_part.py : Joystick.poll -/

/-- One 8-byte input record `struct.unpack('IhBB', evbuf)`:
timestamp, signed 16-bit value, type flags, index. -/
structure JSEvent where
  tval : ℕ
  value : ℤ
  typev : ℕ
  number : ℕ
deriving DecidableEq

/-- The 4-tuple `(button, button_state, axis, axis_val)` returned by
`poll`; `none` models Python `None` (and for `button`/`axis`, "variable
never assigned"). -/
structure PollResult where
  button : Option String
  button_state : Option ℤ
  axis : Option String
  axis_val : Option ℚ
deriving DecidableEq

/-- The decoder's mutable dictionaries `button_states` / `axis_states`. -/
structure JSState where
  button_states : List (String × ℤ)
  axis_states : List (String × ℚ)
deriving DecidableEq

/-- Python dict assignment `m[k] = v`: replace the binding if present,
else append it. -/
def dict_set {α : Type} : List (String × α) → String → α → List (String × α)
  | [], k, v => [(k, v)]
  | (k0, v0) :: rest, k, v =>
    if k0 = k then (k, v) :: rest else (k0, v0) :: dict_set rest k v

/-- The `typev & 0x01` block of `poll`: look the index up in the
`button_map` list (an out-of-range index raises `IndexError`, modelled as
`.error ()`), and only a truthy (non-empty) name updates state and sets
`button_state`.  Returns `(button, button_state, button_states)`. -/
def poll_button (button_map : List String) (bs : List (String × ℤ))
    (ev : JSEvent) : Except Unit (Option String × Option ℤ × List (String × ℤ)) :=
  if ev.typev &&& 0x01 ≠ 0 then
    if h : ev.number < button_map.length then
      let b := button_map.get ⟨ev.number, h⟩
      if b ≠ "" then .ok (some b, some ev.value, dict_set bs b ev.value)
      else .ok (some b, none, bs)
    else .error ()
  else .ok (none, none, bs)

/-- The `typev & 0x02` block of `poll`: look the index up in the
`axis_map` list (out-of-range raises `IndexError`); a truthy name stores
and returns `value / 32767.0`. -/
def poll_axis (axis_map : List String) (axs : List (String × ℚ))
    (ev : JSEvent) : Except Unit (Option String × Option ℚ × List (String × ℚ)) :=
  if ev.typev &&& 0x02 ≠ 0 then
    if h : ev.number < axis_map.length then
      let a := axis_map.get ⟨ev.number, h⟩
      if a ≠ "" then
        .ok (some a, some ((ev.value : ℚ) / 32767),
             dict_set axs a ((ev.value : ℚ) / 32767))
      else .ok (some a, none, axs)
    else .error ()
  else .ok (none, none, axs)

/-- Embedding of `Joystick.poll` (joystick_part.py) on one decoded record:
records with flag `0x80` are discarded before any processing; then the
button block and the axis block run in sequence. `.error ()` models an
uncaught Python exception escaping `poll`. -/
def Joystick_poll (button_map axis_map : List String) (st : JSState)
    (ev : JSEvent) : Except Unit (PollResult × JSState) :=
  if ev.typev &&& 0x80 ≠ 0 then
    .ok ({ button := none, button_state := none, axis := none, axis_val := none }, st)
  else
    match poll_button button_map st.button_states ev with
    | .error e => .error e
    | .ok (button, button_state, bs) =>
      match poll_axis axis_map st.axis_states ev with
      | .error e => .error e
      | .ok (axis, axis_val, axs) =>
        .ok ({ button := button, button_state := button_state,
               axis := axis, axis_val := axis_val },
             { button_states := bs, axis_states := axs })

/-! ## joystick_part.py : JoystickController -/

/-- E-Stop state constants (class attributes of `JoystickController`). -/
def ES_IDLE : ℤ := -1

def ES_START : ℤ := 0

def ES_THROTTLE_NEG_ONE : ℤ := 1

def ES_THROTTLE_POS_ONE : ℤ := 2

def ES_THROTTLE_NEG_TWO : ℤ := 3

/-- The mutable `self.*` fields of `JoystickController` that the per-tick
output and the trigger operations read and write.  Field defaults mirror
`__init__`'s defaults. -/
structure JCState where
  angle : ℚ := 0
  throttle : ℚ := 0
  mode : String := "user"
  last_throttle_axis_val : ℚ := 0
  throttle_scale : ℚ := 1
  steering_scale : ℚ := 1
  throttle_dir : ℚ := -1
  recording : Bool := false
  constant_throttle : Bool := false
  auto_record_on_throttle : Bool := true
  estop_state : ℤ := ES_IDLE
  chaos_monkey_steering : Option ℚ := none
  dead_zone : ℚ := 0
deriving DecidableEq

/-- Embedding of `JoystickController.on_throttle_changes`. -/
def on_throttle_changes (s : JCState) : JCState :=
  if s.auto_record_on_throttle then
    { s with recording := decide (|s.throttle| > s.dead_zone ∧ s.mode = "user") }
  else s

/-- Embedding of `JoystickController.emergency_stop`. -/
def emergency_stop (s : JCState) : JCState :=
  { s with mode := "user", recording := false, constant_throttle := false,
           estop_state := ES_START, throttle := 0 }

/-- Embedding of `JoystickController.set_steering`. -/
def set_steering (s : JCState) (axis_val : ℚ) : JCState :=
  { s with angle := s.steering_scale * axis_val }

/-- Embedding of `JoystickController.set_throttle`. -/
def set_throttle (s : JCState) (axis_val : ℚ) : JCState :=
  on_throttle_changes
    { s with last_throttle_axis_val := axis_val,
             throttle := s.throttle_dir * axis_val * s.throttle_scale }

/-- Python `round(x, 2)` on the rational model: round `100 * x` to the
nearest integer and divide back.  On the integer multiples of `0.01` that
the throttle-scale operations maintain this is exact, which is all the
theorems below rely on. -/
def round2 (q : ℚ) : ℚ := ((round (100 * q) : ℤ) : ℚ) / 100

/-- Embedding of `JoystickController.increase_max_throttle`: clamp the
scale up by 0.01 (capped at 1.0, rounded to two decimals), then recompute
throttle.  `on_throttle_changes` runs only in the constant-throttle
branch, exactly as in the source. -/
def increase_max_throttle (s : JCState) : JCState :=
  let s1 := { s with throttle_scale := round2 (min 1 (s.throttle_scale + 1/100)) }
  if s1.constant_throttle then
    on_throttle_changes { s1 with throttle := s1.throttle_scale }
  else
    { s1 with throttle := s1.throttle_dir * s1.last_throttle_axis_val * s1.throttle_scale }

/-- Embedding of `JoystickController.decrease_max_throttle`. -/
def decrease_max_throttle (s : JCState) : JCState :=
  let s1 := { s with throttle_scale := round2 (max 0 (s.throttle_scale - 1/100)) }
  if s1.constant_throttle then
    on_throttle_changes { s1 with throttle := s1.throttle_scale }
  else
    { s1 with throttle := s1.throttle_dir * s1.last_throttle_axis_val * s1.throttle_scale }

/-- Embedding of `JoystickController.toggle_constant_throttle`. -/
def toggle_constant_throttle (s : JCState) : JCState :=
  if s.constant_throttle then
    on_throttle_changes { s with constant_throttle := false, throttle := 0 }
  else
    on_throttle_changes { s with constant_throttle := true, throttle := s.throttle_scale }

/-- Embedding of `JoystickController.toggle_mode`. -/
def toggle_mode (s : JCState) : JCState :=
  if s.mode = "user" then { s with mode := "local_angle" }
  else if s.mode = "local_angle" then { s with mode := "local" }
  else { s with mode := "user" }

/-- Embedding of `JoystickController.chaos_monkey_on_left`. -/
def chaos_monkey_on_left (s : JCState) : JCState :=
  { s with chaos_monkey_steering := some (-(2/10)) }

/-- Embedding of `JoystickController.chaos_monkey_on_right`. -/
def chaos_monkey_on_right (s : JCState) : JCState :=
  { s with chaos_monkey_steering := some (2/10) }

/-- Embedding of `JoystickController.chaos_monkey_off`. -/
def chaos_monkey_off (s : JCState) : JCState :=
  { s with chaos_monkey_steering := none }

/-- The per-tick output tuple `(angle, throttle, mode, recording)`. -/
abbrev JCOutput := ℚ × ℚ × String × Bool

/-- The tail of `JoystickController.run_threaded` reached when no E-Stop
branch returned: the chaos-monkey override, then the normal output. -/
def run_after_estop (s : JCState) : JCState × JCOutput :=
  match s.chaos_monkey_steering with
  | some c => (s, (c, s.throttle, s.mode, false))
  | none => (s, (s.angle, s.throttle, s.mode, s.recording))

/-- Embedding of `JoystickController.run_threaded` (joystick_part.py):
returns the updated state and the tick's output tuple.  The `img_arr`
argument only gets stored and never read, so it is omitted.  Python falls
through to the chaos-monkey check both when `estop_state <= ES_IDLE` and
when `estop_state > ES_IDLE` matches none of the `elif` arms. -/
def run_threaded (s : JCState) : JCState × JCOutput :=
  if s.estop_state > ES_IDLE then
    if s.estop_state = ES_START then
      ({ s with estop_state := ES_THROTTLE_NEG_ONE },
       (0, -1 * s.throttle_scale, s.mode, false))
    else if s.estop_state = ES_THROTTLE_NEG_ONE then
      ({ s with estop_state := ES_THROTTLE_POS_ONE },
       (0, 1/100, s.mode, false))
    else if s.estop_state = ES_THROTTLE_POS_ONE then
      ({ s with estop_state := ES_THROTTLE_NEG_TWO,
                throttle := -1 * s.throttle_scale },
       (0, -1 * s.throttle_scale, s.mode, false))
    else if s.estop_state = ES_THROTTLE_NEG_TWO then
      let t := s.throttle + 5/100
      if t ≥ 0 then
        ({ s with throttle := 0, estop_state := ES_IDLE },
         (0, 0, s.mode, false))
      else
        ({ s with throttle := t }, (0, t, s.mode, false))
    else
      run_after_estop s
  else
    run_after_estop s

/-- `n` consecutive ticks: the final state and the list of tick outputs. -/
def run_ticks : ℕ → JCState → JCState × List JCOutput
  | 0, s => (s, [])
  | n + 1, s =>
    let p := run_threaded s
    let q := run_ticks n p.1
    (q.1, p.2 :: q.2)

/-! ## Claim theorems -/


/-- C10: for every x, x_min, x_max with x_min ≠ x_max, if y_min = y_max then
`map_range` raises a division-by-zero error — the ratio
`(x_max - x_min) / (y_max - y_min)` is computed first — even though the input
domain is non-degenerate. -/
theorem c10_degenerate_y_range (x x_min x_max y_min y_max : ℚ)
    (hx : x_min ≠ x_max) (hy : y_min = y_max) :
    map_range_checked x x_min x_max y_min y_max = none := by
  simp [map_range_checked, hy]

/-- C10 witness: concrete instance x in 0..1, y bounds both 5. -/
theorem c10_witness :
    (0 : ℚ) ≠ 1 ∧ (5 : ℚ) = 5 ∧
      map_range_checked 0 0 1 5 5 = none :=
  ⟨by norm_num, rfl, c10_degenerate_y_range 0 0 1 5 5 (by norm_num) rfl⟩

/-- C4 counterexample: the bounds (min_pulse, zero_pulse, max_pulse) =
(90, 90, 105) satisfy min_pulse ≤ zero_pulse ≤ max_pulse, yet the throttle
pulse translator at throttle = 0 raises ZeroDivisionError (`map_range` is
called with the degenerate range min_pulse..zero_pulse) instead of setting the
pulse to zero_pulse. -/
theorem c4_counterexample :
    (90 : ℤ) ≤ 90 ∧ (90 : ℤ) ≤ 105 ∧
      PWMThrottle_run_threaded 90 90 105 0 = none := by
  refine ⟨by norm_num, by norm_num, ?_⟩
  norm_num [PWMThrottle_run_threaded, map_range_checked]

/-- C4 (amended): for integers with min_pulse ≤ zero_pulse ≤ max_pulse and
min_pulse ≠ zero_pulse, running the throttle pulse translator with
throttle = 0 sets the pulse exactly to zero_pulse. -/
theorem c4_zero_throttle_amended (min_pulse zero_pulse max_pulse : ℤ)
    (h1 : min_pulse ≤ zero_pulse) (h2 : zero_pulse ≤ max_pulse)
    (hne : min_pulse ≠ zero_pulse) :
    PWMThrottle_run_threaded min_pulse zero_pulse max_pulse 0
      = some zero_pulse := by
  have hy : ((zero_pulse : ℚ) - (min_pulse : ℚ)) ≠ 0 := by
    rw [sub_ne_zero]
    exact_mod_cast hne.symm
  rw [PWMThrottle_run_threaded]
  rw [if_neg (by norm_num)]
  rw [map_range_checked]
  simp only [zero_sub, neg_neg, sub_neg_eq_add, zero_add]
  rw [if_neg ?hY]
  case hY => simpa using hy
  rw [if_neg ?hR]
  case hR => simp [div_eq_zero_iff, hy]
  congr 1
  rw [div_div_eq_mul_div, one_mul]
  rw [div_one, sub_add_cancel]
  exact Int.floor_intCast zero_pulse

/-- C4 witness: the configured bounds (75, 90, 105) at throttle 0 give 90. -/
theorem c4_witness : PWMThrottle_run_threaded 75 90 105 0 = some 90 :=
  c4_zero_throttle_amended 75 90 105 (by norm_num) (by norm_num) (by norm_num)

/-- C3 counterexample: with x = x_min = 0, x_max = 1 and non-integer y bounds
y_min = 0.5, y_max = 1.5 (all claim-side conditions hold), the result of
`map_range` is 0, which lies below min(y_min, y_max) = 0.5 — the floor drops
the result out of the claimed interval. -/
theorem c3_counterexample :
    ((0:ℚ) ≠ 1 ∧ (1/2 : ℚ) ≠ 3/2 ∧ min (0:ℚ) 1 ≤ 0 ∧ (0:ℚ) ≤ max 0 1)
    ∧ ¬ (min (1/2 : ℚ) (3/2) ≤ ((map_range 0 0 1 (1/2) (3/2) : ℤ) : ℚ)) := by
  refine ⟨by norm_num, ?_⟩
  have h : map_range 0 0 1 (1/2) (3/2) = 0 := by
    norm_num [map_range, Int.floor_eq_iff]
  rw [h]
  norm_num

/-- C3 (amended): for every x in the (possibly reversed) range between x_min
and x_max with x_min ≠ x_max, and INTEGER y bounds with y_min ≠ y_max,
`map_range` lies in the interval from min(y_min, y_max) to max(y_min, y_max),
and maps the endpoints exactly: x_min to y_min and x_max to y_max. -/
theorem c3_remap_amended (x x_min x_max : ℚ) (y_min y_max : ℤ)
    (hx : x_min ≠ x_max) (hy : y_min ≠ y_max)
    (hx1 : min x_min x_max ≤ x) (hx2 : x ≤ max x_min x_max) :
    (min y_min y_max ≤ map_range x x_min x_max (y_min : ℚ) (y_max : ℚ)
      ∧ map_range x x_min x_max (y_min : ℚ) (y_max : ℚ) ≤ max y_min y_max)
    ∧ map_range x_min x_min x_max (y_min : ℚ) (y_max : ℚ) = y_min
    ∧ map_range x_max x_min x_max (y_min : ℚ) (y_max : ℚ) = y_max := by
  have hu : x_max - x_min ≠ 0 := sub_ne_zero.mpr (Ne.symm hx)
  have hval : ∀ z : ℚ,
      (z - x_min) / ((x_max - x_min) / ((y_max : ℚ) - (y_min : ℚ))) + (y_min : ℚ)
        = (z - x_min) / (x_max - x_min) * ((y_max : ℚ) - (y_min : ℚ)) + (y_min : ℚ) := by
    intro z
    rw [div_div_eq_mul_div, ← div_mul_eq_mul_div]
  set t := (x - x_min) / (x_max - x_min) with ht
  have ht0 : 0 ≤ t := by
    rcases lt_or_gt_of_ne hx with hlt | hgt
    · have h1 : x_min ≤ x := by rwa [min_eq_left hlt.le] at hx1
      have hupos : 0 < x_max - x_min := by linarith
      exact div_nonneg (by linarith) hupos.le
    · have h2 : x ≤ x_min := by rwa [max_eq_left hgt.le] at hx2
      have huneg : x_max - x_min < 0 := by linarith
      rw [ht, div_nonneg_iff]
      right
      exact ⟨by linarith, huneg.le⟩
  have ht1 : t ≤ 1 := by
    rcases lt_or_gt_of_ne hx with hlt | hgt
    · have h2 : x ≤ x_max := by rwa [max_eq_right hlt.le] at hx2
      have hupos : 0 < x_max - x_min := by linarith
      rw [ht, div_le_one hupos]
      linarith
    · have h1 : x_max ≤ x := by rwa [min_eq_right hgt.le] at hx1
      have huneg : x_max - x_min < 0 := by linarith
      rw [ht, div_le_one_iff]
      right; right
      exact ⟨huneg, by linarith⟩
  have key : ∀ a b : ℚ, min a b ≤ t * (b - a) + a ∧ t * (b - a) + a ≤ max a b := by
    intro a b
    rcases le_total a b with hab | hab
    · rw [min_eq_left hab, max_eq_right hab]
      constructor
      · nlinarith [mul_nonneg ht0 (sub_nonneg.mpr hab)]
      · nlinarith [mul_nonneg (sub_nonneg.mpr ht1) (sub_nonneg.mpr hab)]
    · rw [min_eq_right hab, max_eq_left hab]
      constructor
      · nlinarith [mul_nonneg (sub_nonneg.mpr ht1) (sub_nonneg.mpr hab)]
      · nlinarith [mul_nonneg ht0 (sub_nonneg.mpr hab)]
  refine ⟨⟨?_, ?_⟩, ?_, ?_⟩
  · rw [map_range]
    rw [hval x, ← ht]
    rw [Int.le_floor]
    have := (key (y_min : ℚ) (y_max : ℚ)).1
    push_cast
    rw [div_mul_eq_mul_div, ← div_mul_eq_mul_div, ← ht]
    exact this
  · rw [map_range]
    rw [hval x, ← ht]
    have hle : t * ((y_max : ℚ) - (y_min : ℚ)) + (y_min : ℚ)
        ≤ ((max y_min y_max : ℤ) : ℚ) := by
      push_cast
      exact (key (y_min : ℚ) (y_max : ℚ)).2
    have := Int.floor_le_floor hle
    rwa [Int.floor_intCast] at this
  · rw [map_range]
    simp [sub_self, zero_div, Int.floor_intCast]
  · rw [map_range]
    rw [div_div_eq_mul_div, mul_comm, mul_div_assoc, div_self hu, mul_one,
      sub_add_cancel, Int.floor_intCast]

/-- C3 witness: x = 0.5 in the range 0..1 with y bounds 60..120. -/
theorem c3_remap_amended_witness :
    ((0:ℚ) ≠ 1 ∧ (60:ℤ) ≠ 120 ∧ min (0:ℚ) 1 ≤ 1/2 ∧ (1/2:ℚ) ≤ max 0 1)
    ∧ ((min (60:ℤ) 120 ≤ map_range (1/2) 0 1 ((60:ℤ) : ℚ) ((120:ℤ) : ℚ)
          ∧ map_range (1/2) 0 1 ((60:ℤ) : ℚ) ((120:ℤ) : ℚ) ≤ max 60 120)
        ∧ map_range 0 0 1 ((60:ℤ) : ℚ) ((120:ℤ) : ℚ) = 60
        ∧ map_range 1 0 1 ((60:ℤ) : ℚ) ((120:ℤ) : ℚ) = 120) :=
  ⟨by norm_num,
   c3_remap_amended (1/2) 0 1 60 120 (by norm_num) (by norm_num)
     (by norm_num) (by norm_num)⟩

/-- C5 counterexample: on a board whose writes always fail, `set_pulse`
attempts the write twice and the exception from the retry escapes — it is not
dropped silently. -/
theorem c5_counterexample :
    (set_pulse (fun _ => true) 6 100).writes.length = 2
    ∧ (set_pulse (fun _ => true) 6 100).escaped = true :=
  ⟨rfl, rfl⟩

/-- C5 (amended): for every pulse write, `set_pulse` attempts the underlying
write at most twice; when the first write succeeds one write is issued and no
exception escapes; when the first write fails it retries exactly once, and an
exception escapes exactly when the retry also fails. -/
theorem c5_retry_amended (fail : ℕ → Bool) (pin : ℤ) (angle : ℚ) :
    (set_pulse fail pin angle).writes.length ≤ 2
    ∧ (fail 0 = false →
        set_pulse fail pin angle
          = { writes := [(pin, int_trunc angle)], escaped := false })
    ∧ (fail 0 = true →
        (set_pulse fail pin angle).writes
            = [(pin, int_trunc angle), (pin, int_trunc angle)]
          ∧ (set_pulse fail pin angle).escaped = fail 1) := by
  refine ⟨?_, ?_, ?_⟩
  · by_cases h : fail 0 <;> simp [set_pulse, h]
  · intro h
    simp [set_pulse, h]
  · intro h
    simp [set_pulse, h]

/-- C5 witness: a board that never fails gets exactly one write and no
escaped exception. -/
theorem c5_retry_amended_witness :
    set_pulse (fun _ : ℕ => false) 6 100
      = { writes := [(6, 100)], escaped := false } := by
  have h := (c5_retry_amended (fun _ => false) 6 100).2.1 rfl
  rw [h]
  norm_num [int_trunc]

/-- C8: for every input record with type-flag bit 0x80 set, and every value
and index in that record, `poll` produces no event and leaves the stored
axis and button states unchanged. -/
theorem c8_synthetic_init_no_event (button_map axis_map : List String)
    (st : JSState) (ev : JSEvent) (h : ev.typev &&& 0x80 ≠ 0) :
    Joystick_poll button_map axis_map st ev
      = .ok ({ button := none, button_state := none,
               axis := none, axis_val := none }, st) := by
  simp [Joystick_poll, h]

/-- C8 witness: a record with flags 0x81 and out-of-range index 0 is still
discarded with the state untouched. -/
theorem c8_synthetic_init_no_event_witness :
    ((0x81 &&& 0x80 : ℕ) ≠ 0)
    ∧ Joystick_poll ["A"] ["x"]
        { button_states := [("A", 0)], axis_states := [("x", 0)] }
        { tval := 7, value := 5, typev := 0x81, number := 0 }
      = .ok ({ button := none, button_state := none,
               axis := none, axis_val := none },
             { button_states := [("A", 0)], axis_states := [("x", 0)] }) :=
  ⟨by decide,
   c8_synthetic_init_no_event ["A"] ["x"]
     { button_states := [("A", 0)], axis_states := [("x", 0)] }
     { tval := 7, value := 5, typev := 0x81, number := 0 } (by decide)⟩

/-- C7 counterexample: a button record (flag 0x01) whose index 0 has no
entry in an empty button calibration list makes `poll` raise IndexError
instead of producing no event. -/
theorem c7_counterexample :
    Joystick_poll [] [] { button_states := [], axis_states := [] }
        { tval := 0, value := 1, typev := 1, number := 0 } = .error () := by
  simp [Joystick_poll, poll_button]

/-- C7 (amended): a record whose index is within the calibration list but
maps to an empty (falsy) name produces no event for that component and leaves
DeviceState unchanged; a record whose index has no entry in the list at all
raises IndexError rather than being skipped. -/
theorem c7_unmapped_amended (button_map axis_map : List String) (st : JSState)
    (ev : JSEvent) (h80 : ev.typev &&& 0x80 = 0) :
    (∀ hlt : ev.number < button_map.length,
        ev.typev &&& 0x01 ≠ 0 → ev.typev &&& 0x02 = 0 →
        button_map.get ⟨ev.number, hlt⟩ = "" →
        Joystick_poll button_map axis_map st ev
          = .ok ({ button := some "", button_state := none,
                   axis := none, axis_val := none }, st))
    ∧ (∀ hlt : ev.number < axis_map.length,
        ev.typev &&& 0x02 ≠ 0 → ev.typev &&& 0x01 = 0 →
        axis_map.get ⟨ev.number, hlt⟩ = "" →
        Joystick_poll button_map axis_map st ev
          = .ok ({ button := none, button_state := none,
                   axis := some "", axis_val := none }, st))
    ∧ (ev.typev &&& 0x01 ≠ 0 → button_map.length ≤ ev.number →
        Joystick_poll button_map axis_map st ev = .error ())
    ∧ (ev.typev &&& 0x02 ≠ 0 → ev.typev &&& 0x01 = 0 →
        axis_map.length ≤ ev.number →
        Joystick_poll button_map axis_map st ev = .error ()) := by
  refine ⟨?_, ?_, ?_, ?_⟩
  · intro hlt hb ha hget
    rw [Joystick_poll, if_neg (by simp [h80])]
    rw [poll_button, if_pos hb, dif_pos hlt]
    rw [hget]
    rw [if_neg (by simp)]
    rw [poll_axis, if_neg (by simp [ha])]
  · intro hlt ha hb hget
    rw [Joystick_poll, if_neg (by simp [h80])]
    rw [poll_button, if_neg (by simp [hb])]
    rw [poll_axis, if_pos ha, dif_pos hlt]
    rw [hget]
    rw [if_neg (by simp)]
  · intro hb hge
    rw [Joystick_poll, if_neg (by simp [h80])]
    rw [poll_button, if_pos hb, dif_neg (by omega)]
  · intro ha hb hge
    rw [Joystick_poll, if_neg (by simp [h80])]
    rw [poll_button, if_neg (by simp [hb])]
    rw [poll_axis, if_pos ha, dif_neg (by omega)]

/-- C7 witness: a button record hitting an empty-name entry produces no
event and leaves the state unchanged. -/
theorem c7_unmapped_amended_witness :
    ((1 &&& 0x80 : ℕ) = 0)
    ∧ Joystick_poll [""] ["x"] { button_states := [], axis_states := [] }
        { tval := 0, value := 1, typev := 1, number := 0 }
      = .ok ({ button := some "", button_state := none,
               axis := none, axis_val := none },
             { button_states := [], axis_states := [] }) :=
  ⟨by decide,
   (c7_unmapped_amended [""] ["x"] { button_states := [], axis_states := [] }
       { tval := 0, value := 1, typev := 1, number := 0 } (by decide)).1
     (by decide) (by decide) (by decide) rfl⟩

/-- C9: the mode-toggle operation cycles user → local_angle → local → user
with no other transitions, so for every starting mode among the three, three
consecutive toggles return mode to its original value. -/
theorem c9_mode_cycle (s : JCState)
    (h : s.mode = "user" ∨ s.mode = "local_angle" ∨ s.mode = "local") :
    (toggle_mode (toggle_mode (toggle_mode s))).mode = s.mode
    ∧ (s.mode = "user" → (toggle_mode s).mode = "local_angle")
    ∧ (s.mode = "local_angle" → (toggle_mode s).mode = "local")
    ∧ (s.mode = "local" → (toggle_mode s).mode = "user") := by
  rcases h with h | h | h <;> simp [toggle_mode, h]

/-- C9 witness: three toggles from the default mode return to it. -/
theorem c9_mode_cycle_witness :
    (toggle_mode (toggle_mode (toggle_mode ({} : JCState)))).mode
      = ({} : JCState).mode :=
  (c9_mode_cycle {} (Or.inl rfl)).1

/-- C2: for every controller state (with EStopState one of its five
enumeration values), the per-tick output follows the precedence: (1) if
EStopState is not Idle, the state machine's output is returned (steering 0,
recording false) and the override bias and steering angle are ignored; (2)
else with an active override bias b the output is (b, throttle, mode, false);
(3) else the output is (angle, throttle, mode, recording). -/
theorem c2_output_precedence (s : JCState)
    (hlo : ES_IDLE ≤ s.estop_state) (hhi : s.estop_state ≤ ES_THROTTLE_NEG_TWO) :
    (s.estop_state ≠ ES_IDLE →
        (run_threaded s).2.1 = 0
        ∧ (run_threaded s).2.2.2.2 = false
        ∧ ∀ (c : Option ℚ) (a : ℚ),
            (run_threaded { s with chaos_monkey_steering := c, angle := a }).2
              = (run_threaded s).2)
    ∧ (∀ b : ℚ, s.estop_state = ES_IDLE → s.chaos_monkey_steering = some b →
        (run_threaded s).2 = (b, s.throttle, s.mode, false))
    ∧ (s.estop_state = ES_IDLE → s.chaos_monkey_steering = none →
        (run_threaded s).2 = (s.angle, s.throttle, s.mode, s.recording)) := by
  have h5 : s.estop_state = ES_IDLE ∨ s.estop_state = ES_START
      ∨ s.estop_state = ES_THROTTLE_NEG_ONE ∨ s.estop_state = ES_THROTTLE_POS_ONE
      ∨ s.estop_state = ES_THROTTLE_NEG_TWO := by
    simp only [ES_IDLE, ES_START, ES_THROTTLE_NEG_ONE, ES_THROTTLE_POS_ONE,
      ES_THROTTLE_NEG_TWO] at *
    omega
  rcases h5 with h | h | h | h | h
  · refine ⟨fun hne => absurd h hne, ?_, ?_⟩
    · intro b _ hc
      simp [run_threaded, run_after_estop, h, ES_IDLE, hc]
    · intro _ hc
      simp [run_threaded, run_after_estop, h, ES_IDLE, hc]
  · refine ⟨fun _ => ?_, fun b heq => ?_, fun heq => ?_⟩
    · refine ⟨?_, ?_, ?_⟩ <;>
        simp [run_threaded, h, ES_START, ES_IDLE, ES_THROTTLE_NEG_ONE]
    · rw [h] at heq
      simp [ES_START, ES_IDLE] at heq
    · rw [h] at heq
      simp [ES_START, ES_IDLE] at heq
  · refine ⟨fun _ => ?_, fun b heq => ?_, fun heq => ?_⟩
    · refine ⟨?_, ?_, ?_⟩ <;>
        simp [run_threaded, h, ES_START, ES_IDLE, ES_THROTTLE_NEG_ONE,
          ES_THROTTLE_POS_ONE]
    · rw [h] at heq
      simp [ES_THROTTLE_NEG_ONE, ES_IDLE] at heq
    · rw [h] at heq
      simp [ES_THROTTLE_NEG_ONE, ES_IDLE] at heq
  · refine ⟨fun _ => ?_, fun b heq => ?_, fun heq => ?_⟩
    · refine ⟨?_, ?_, ?_⟩ <;>
        simp [run_threaded, h, ES_START, ES_IDLE, ES_THROTTLE_NEG_ONE,
          ES_THROTTLE_POS_ONE, ES_THROTTLE_NEG_TWO]
    · rw [h] at heq
      simp [ES_THROTTLE_POS_ONE, ES_IDLE] at heq
    · rw [h] at heq
      simp [ES_THROTTLE_POS_ONE, ES_IDLE] at heq
  · refine ⟨fun _ => ?_, fun b heq => ?_, fun heq => ?_⟩
    · by_cases hge : s.throttle + 5/100 ≥ 0 <;>
        · refine ⟨?_, ?_, ?_⟩ <;>
            simp [run_threaded, h, ES_START, ES_IDLE, ES_THROTTLE_NEG_ONE,
              ES_THROTTLE_POS_ONE, ES_THROTTLE_NEG_TWO, hge]
    · rw [h] at heq
      simp [ES_THROTTLE_NEG_TWO, ES_IDLE] at heq
    · rw [h] at heq
      simp [ES_THROTTLE_NEG_TWO, ES_IDLE] at heq

/-- C2 witness: an idle state with override bias 0.2 × (…) = 1/5 outputs
the bias with recording forced false. -/
theorem c2_output_precedence_witness :
    (run_threaded { chaos_monkey_steering := some (1/5) }).2
      = (1/5, ({} : JCState).throttle, ({} : JCState).mode, false) :=
  (c2_output_precedence { chaos_monkey_steering := some (1/5) }
      (by norm_num [ES_IDLE]) (by norm_num [ES_IDLE, ES_THROTTLE_NEG_TWO])).2.1
    (1/5) rfl rfl

/-- C1 counterexample: with throttle_scale = 1.0 (allowed by the claim's
range [0, 1]) and EStopState = Start, after exactly 4 ticks the state machine
has NOT reached Idle and throttle is not 0 — the ramp phase advances by 0.05
per tick and needs 20 ticks to climb from −1.0 back to 0. -/
theorem c1_counterexample :
    (run_ticks 4 { estop_state := ES_START, throttle_scale := 1 }).1.estop_state
        ≠ ES_IDLE
    ∧ (run_ticks 4 { estop_state := ES_START, throttle_scale := 1 }).1.throttle
        ≠ 0 := by
  norm_num [run_ticks, run_threaded, run_after_estop, ES_IDLE, ES_START,
    ES_THROTTLE_NEG_ONE, ES_THROTTLE_POS_ONE, ES_THROTTLE_NEG_TWO]

/-- C1 (amended): for every throttle_scale in [0, 0.05], starting from
Start, the state machine is not yet Idle after ticks 1–3, reaches Idle with
throttle = 0.0 after exactly 4 ticks, and on every one of those ticks the
steering output is 0.0 and the recording output is false.  (For larger
scales the NEG_TWO ramp phase repeats and more ticks are needed.) -/
theorem c1_estop_amended (s : JCState) (h : s.estop_state = ES_START)
    (h0 : 0 ≤ s.throttle_scale) (h5 : s.throttle_scale ≤ 1/20) :
    (run_ticks 1 s).1.estop_state ≠ ES_IDLE
    ∧ (run_ticks 2 s).1.estop_state ≠ ES_IDLE
    ∧ (run_ticks 3 s).1.estop_state ≠ ES_IDLE
    ∧ (run_ticks 4 s).1.estop_state = ES_IDLE
    ∧ (run_ticks 4 s).1.throttle = 0
    ∧ ∀ o ∈ (run_ticks 4 s).2, o.1 = 0 ∧ o.2.2.2 = false := by
  have e1 : run_threaded s
      = ({ s with estop_state := ES_THROTTLE_NEG_ONE },
         (0, -s.throttle_scale, s.mode, false)) := by
    simp [run_threaded, h, ES_START, ES_IDLE, ES_THROTTLE_NEG_ONE]
  have e2 : run_threaded { s with estop_state := ES_THROTTLE_NEG_ONE }
      = ({ s with estop_state := ES_THROTTLE_POS_ONE },
         (0, 1/100, s.mode, false)) := by
    simp [run_threaded, ES_IDLE, ES_START, ES_THROTTLE_NEG_ONE,
      ES_THROTTLE_POS_ONE]
  have e3 : run_threaded { s with estop_state := ES_THROTTLE_POS_ONE }
      = ({ s with estop_state := ES_THROTTLE_NEG_TWO, throttle := -s.throttle_scale },
         (0, -s.throttle_scale, s.mode, false)) := by
    simp [run_threaded, ES_IDLE, ES_START, ES_THROTTLE_NEG_ONE,
      ES_THROTTLE_POS_ONE, ES_THROTTLE_NEG_TWO]
  have e4 : run_threaded { s with estop_state := ES_THROTTLE_NEG_TWO, throttle := -s.throttle_scale }
      = ({ s with estop_state := ES_IDLE, throttle := 0 },
         (0, 0, s.mode, false)) := by
    simp [run_threaded, ES_IDLE, ES_START, ES_THROTTLE_NEG_ONE,
      ES_THROTTLE_POS_ONE, ES_THROTTLE_NEG_TWO]
    linarith
  refine ⟨?_, ?_, ?_, ?_, ?_, ?_⟩
  · simp [run_ticks, e1, ES_THROTTLE_NEG_ONE, ES_IDLE]
  · simp [run_ticks, e1, e2, ES_THROTTLE_POS_ONE, ES_IDLE]
  · simp [run_ticks, e1, e2, e3, ES_THROTTLE_NEG_TWO, ES_IDLE]
  · simp [run_ticks, e1, e2, e3, e4]
  · simp [run_ticks, e1, e2, e3, e4]
  · simp [run_ticks, e1, e2, e3, e4]

/-- C1 witness: throttle_scale = 0.05 reaches Idle with throttle 0 after
exactly 4 ticks. -/
theorem c1_estop_amended_witness :
    (run_ticks 4 { estop_state := ES_START, throttle_scale := 1/20 }).1.estop_state
        = ES_IDLE
    ∧ (run_ticks 4 { estop_state := ES_START, throttle_scale := 1/20 }).1.throttle
        = 0 := by
  have h := c1_estop_amended { estop_state := ES_START, throttle_scale := 1/20 }
    rfl (by norm_num) (by norm_num)
  exact ⟨h.2.2.2.1, h.2.2.2.2.1⟩

/-- `round2` is exact on integer multiples of one hundredth. -/
theorem round2_hundredth (k : ℤ) : round2 ((k : ℚ) / 100) = (k : ℚ) / 100 := by
  unfold round2
  rw [mul_comm, div_mul_cancel₀ _ (by norm_num : (100 : ℚ) ≠ 0), round_intCast]

/-- `round2` is exact on `min 1` of a hundredth. -/
theorem round2_min_one (k : ℤ) :
    round2 (min 1 ((k : ℚ) / 100)) = min 1 ((k : ℚ) / 100) := by
  rcases le_total ((k : ℚ) / 100) 1 with hle | hle
  · rw [min_eq_right hle, round2_hundredth]
  · rw [min_eq_left hle]
    have h1 : (1 : ℚ) = ((100 : ℤ) : ℚ) / 100 := by norm_num
    rw [h1, round2_hundredth]

/-- `round2` is exact on `max 0` of a hundredth. -/
theorem round2_max_zero (k : ℤ) :
    round2 (max 0 ((k : ℚ) / 100)) = max 0 ((k : ℚ) / 100) := by
  rcases le_total ((k : ℚ) / 100) 0 with hle | hle
  · rw [max_eq_left hle]
    have h0 : (0 : ℚ) = ((0 : ℤ) : ℚ) / 100 := by norm_num
    rw [h0, round2_hundredth]
  · rw [max_eq_right hle, round2_hundredth]

/-- C6 counterexample: with constant-throttle off, scale 0.5, last axis
sample −1 and default flags (auto-record on, mode user, dead zone 0), the
scale-increase operation recomputes throttle (to 0.51) but does NOT
re-evaluate the recording flag: it stays false although re-evaluating it
(as `set_throttle` does) would set it true. -/
theorem c6_counterexample :
    (increase_max_throttle
        { throttle_scale := 1/2, last_throttle_axis_val := -1 }).recording = false
    ∧ (on_throttle_changes (increase_max_throttle
        { throttle_scale := 1/2, last_throttle_axis_val := -1 })).recording
        = true := by
  constructor
  · simp [increase_max_throttle]
  · simp only [increase_max_throttle, on_throttle_changes]
    simp
    rw [show (1 : ℚ) ⊓ (2⁻¹ + 100⁻¹) = ((51 : ℤ) : ℚ)/100 by norm_num,
      round2_hundredth]
    norm_num

/-- C6 (amended): for every controller state whose throttle_scale is an
integer multiple of 0.01 (the invariant the code maintains), the increase
operation sets throttle_scale to min(1.0, scale + 0.01) and the decrease
operation to max(0.0, scale − 0.01); each recomputes throttle from the last
stored raw axis sample, or from the new scale itself when constant-throttle
mode is active; the recording flag is re-evaluated ONLY in the
constant-throttle branch and is left unchanged otherwise. -/
theorem c6_scale_amended (s : JCState) (k : ℤ)
    (hk : s.throttle_scale = (k : ℚ) / 100) :
    ((increase_max_throttle s).throttle_scale = min 1 (s.throttle_scale + 1/100)
      ∧ (decrease_max_throttle s).throttle_scale = max 0 (s.throttle_scale - 1/100))
    ∧ (s.constant_throttle = false →
        ((increase_max_throttle s).throttle
            = s.throttle_dir * s.last_throttle_axis_val
                * min 1 (s.throttle_scale + 1/100)
          ∧ (increase_max_throttle s).recording = s.recording
          ∧ (decrease_max_throttle s).throttle
            = s.throttle_dir * s.last_throttle_axis_val
                * max 0 (s.throttle_scale - 1/100)
          ∧ (decrease_max_throttle s).recording = s.recording))
    ∧ (s.constant_throttle = true →
        ((increase_max_throttle s).throttle = min 1 (s.throttle_scale + 1/100)
          ∧ (decrease_max_throttle s).throttle = max 0 (s.throttle_scale - 1/100)
          ∧ (s.auto_record_on_throttle = true →
              ((increase_max_throttle s).recording
                  = decide (|min 1 (s.throttle_scale + 1/100)| > s.dead_zone
                      ∧ s.mode = "user")
                ∧ (decrease_max_throttle s).recording
                  = decide (|max 0 (s.throttle_scale - 1/100)| > s.dead_zone
                      ∧ s.mode = "user"))))) := by
  have hincq : s.throttle_scale + 1/100 = ((k + 1 : ℤ) : ℚ) / 100 := by
    rw [hk]; push_cast; ring
  have hdecq : s.throttle_scale - 1/100 = ((k - 1 : ℤ) : ℚ) / 100 := by
    rw [hk]; push_cast; ring
  have hinc : round2 (min 1 (s.throttle_scale + 1/100))
      = min 1 (s.throttle_scale + 1/100) := by
    rw [hincq, round2_min_one]
  have hdec : round2 (max 0 (s.throttle_scale - 1/100))
      = max 0 (s.throttle_scale - 1/100) := by
    rw [hdecq, round2_max_zero]
  have hq : (100⁻¹ : ℚ) = 1/100 := by norm_num
  have hinc2 : round2 (min 1 (s.throttle_scale + 100⁻¹))
      = min 1 (s.throttle_scale + 100⁻¹) := by
    rw [hq]; exact hinc
  have hdec2 : round2 (max 0 (s.throttle_scale - 100⁻¹))
      = max 0 (s.throttle_scale - 100⁻¹) := by
    rw [hq]; exact hdec
  refine ⟨⟨?_, ?_⟩, fun hc => ⟨?_, ?_, ?_, ?_⟩, fun hc => ⟨?_, ?_, fun ha => ⟨?_, ?_⟩⟩⟩
  · by_cases hc : s.constant_throttle <;>
      by_cases ha : s.auto_record_on_throttle <;>
        simp [increase_max_throttle, on_throttle_changes, hinc, hinc2, hc, ha]
  · by_cases hc : s.constant_throttle <;>
      by_cases ha : s.auto_record_on_throttle <;>
        simp [decrease_max_throttle, on_throttle_changes, hdec, hdec2, hc, ha]
  · simp [increase_max_throttle, hinc, hinc2, hc]
  · simp [increase_max_throttle, hinc, hinc2, hc]
  · simp [decrease_max_throttle, hdec, hdec2, hc]
  · simp [decrease_max_throttle, hdec, hdec2, hc]
  · by_cases ha : s.auto_record_on_throttle <;>
      simp [increase_max_throttle, on_throttle_changes, hinc, hinc2, hc, ha]
  · by_cases ha : s.auto_record_on_throttle <;>
      simp [decrease_max_throttle, on_throttle_changes, hdec, hdec2, hc, ha]
  · simp [increase_max_throttle, on_throttle_changes, hinc, hinc2, hc, ha]
  · simp [decrease_max_throttle, on_throttle_changes, hdec, hdec2, hc, ha]

/-- C6 witness: from the default state (scale 1.0) the increase operation
clamps at 1.0 and the decrease operation yields 0.99. -/
theorem c6_scale_amended_witness :
    (({} : JCState).throttle_scale = ((100 : ℤ) : ℚ) / 100)
    ∧ (increase_max_throttle ({} : JCState)).throttle_scale
        = min 1 (({} : JCState).throttle_scale + 1/100)
    ∧ (decrease_max_throttle ({} : JCState)).throttle_scale
        = max 0 (({} : JCState).throttle_scale - 1/100) :=
  ⟨by norm_num,
   (c6_scale_amended {} 100 (by norm_num)).1.1,
   (c6_scale_amended {} 100 (by norm_num)).1.2⟩
